import Mathlib

/-!
Verification of the SubWindow dual-representation window subsystem of
`kivy/uix/subwindow.py` (with the representation-selection logic shared by
`kivy/core/subwindow/__init__.py`), as a shallow embedding: widget and
property state is explicit, event dispatch and debug logging are recorded in
a trace, and a Python exception is an `Except` error.  Line numbers in the
comments refer to `kivy/uix/subwindow.py`.
-/

/-- Identifier standing for an opaque widget/content node. -/
abbrev WidgetId := Nat

/-- Window position; coordinates as integers (the code only copies them). -/
abbrev Point := Int × Int

/-- A kivy `pos_hint` dictionary (the code only copies it around, so entries
are opaque key/value pairs; `[]` is the empty dict `{ }`). -/
abbrev PosHint := List (String × Int)

/-- A kivy `size_hint` pair; a `none` component is the Python `None`. -/
abbrev SizeHint := Option Int × Option Int

/-- The options of the `type` OptionProperty (line 134); an OptionProperty
rejects any other value, so the type is exact. -/
inductive WindowType where
  | resizable
  | fixed
  | tool
  | borderless
deriving DecidableEq, Repr

/-- Observable effects of one lifecycle call: events dispatched on the
window, representation hooks entered, and debug log lines. -/
inductive Ev where
  | on_request_close (force : Bool)
  | on_close
  | on_maximize
  | on_minimize
  | on_restore (wasMinimized : Bool)
  | hook_close
  | hook_maximize
  | hook_minimize
  | hook_restore (wasMinimized : Bool)
  | log (msg : String)
deriving DecidableEq, Repr

/-- `SubWindowRequestCloseEvent` (lines 96-102): `mayClose` starts `True`
and tells the dispatcher whether it is okay to close; `forceClose` records
the `force` argument. -/
structure SubWindowRequestCloseEvent where
  mayClose : Bool
  forceClose : Bool
deriving DecidableEq, Repr

/-- Constructor `SubWindowRequestCloseEvent(force)` (lines 97-102). -/
def SubWindowRequestCloseEvent.init (force : Bool) : SubWindowRequestCloseEvent :=
  { mayClose := true, forceClose := force }

/-- A handler chain bound to `on_request_close`: the handlers receive the
mutable event object and may rewrite its fields arbitrarily. -/
abbrev CloseHandler := SubWindowRequestCloseEvent → SubWindowRequestCloseEvent

/-- State of a `SubWindowPopup` (lines 504-695), the overlay representation:
the `SubWindowBase` properties (lines 134-195), the widget geometry
inherited from `Widget`/`FloatModalView`, and the popup-internal fields set
in `__init__` (lines 593-610).  `pos`, `pos_hint` hold `Option` values
because `_premax_pos`/`_premax_pos_hint` start as Python `None` and are
assigned into them verbatim by `_restore`.  Button objects are not modelled
(no claim concerns them); `update_buttons` is recorded by a counter. -/
structure SubWindowPopup where
  type : WindowType
  title : String
  kv_file : String
  allow_maximize : Bool
  allow_minimize : Bool
  allow_close : Bool
  minimized : Bool
  maximized : Bool
  content : Option WidgetId
  pos : Option Point
  pos_hint : Option PosHint
  size : Point
  size_hint : SizeHint
  container : Option WidgetId
  container_children : List WidgetId
  children : List WidgetId
  is_open : Bool
  premax_pos : Option Point
  premax_pos_hint : Option PosHint
  buttons_refreshes : Nat
deriving DecidableEq, Repr

/-- Modelled from the spec: `FloatModalView.open` (the generic float/modal
overlay base widget is not part of the sources) shows the panel as a modal
overlay; we record shown-ness in the `_open` flag that `SubWindowPopup`
initializes to `False` (line 596). -/
def FloatModalView.open (p : SubWindowPopup) : SubWindowPopup :=
  { p with is_open := true }

/-- Modelled from the spec: `FloatModalView.dismiss` hides the panel. -/
def FloatModalView.dismiss (p : SubWindowPopup) : SubWindowPopup :=
  { p with is_open := false }

/-- `SubWindowPopup.update_buttons` (lines 623-638): recomputes button
visibility and re-attaches/detaches buttons inside the buttons container.
It touches only button state, which is not modelled; the counter records
that it ran. -/
def SubWindowPopup.update_buttons (p : SubWindowPopup) : SubWindowPopup :=
  { p with buttons_refreshes := p.buttons_refreshes + 1 }

/-- Property assignment `self.content = value` triggers the `on_content`
observer (lines 649-652): when the container exists it is cleared and the
new value attached. -/
def SubWindowPopup.set_content (value : WidgetId) (p : SubWindowPopup) : SubWindowPopup :=
  let p := { p with content := some value }
  if p.container.isSome then
    { p with container_children := [value] }
  else
    p

/-- `SubWindowPopup.add_widget` (lines 640-647): with a container present, a
second content widget raises `SubWindowException` (the raise aborts the call
before any mutation, so the caller keeps the unmodified state); otherwise
the widget becomes the content.  Without a container the widget is added to
the normal children list by `super().add_widget`. -/
def SubWindowPopup.add_widget (widget : WidgetId) (p : SubWindowPopup) : Except String SubWindowPopup :=
  if p.container.isSome then
    if p.content.isSome then
      .error "SubWindow can have only one widget as content"
    else
      .ok (SubWindowPopup.set_content widget p)
  else
    .ok { p with children := widget :: p.children }

/-- `SubWindowPopup._close` (lines 669-673): dismiss only when open. -/
def SubWindowPopup.close_hook (p : SubWindowPopup) : SubWindowPopup :=
  if !p.is_open then p else FloatModalView.dismiss p

/-- `SubWindowPopup._maximize` (lines 675-683): save `pos`/`pos_hint`, fill
the host window (`pos = (0, 0)`, `pos_hint = { }`, `size_hint = (1, 1)`),
refresh the buttons. -/
def SubWindowPopup.maximize_hook (p : SubWindowPopup) : SubWindowPopup :=
  let p := { p with premax_pos := p.pos, premax_pos_hint := p.pos_hint }
  let p := { p with pos := some (0, 0), pos_hint := some [], size_hint := (some 1, some 1) }
  SubWindowPopup.update_buttons p

/-- `SubWindowPopup._minimize` (lines 685-687): a `pass` stub in the
source (TODO comment), so it changes nothing. -/
def SubWindowPopup.minimize_hook (p : SubWindowPopup) : SubWindowPopup :=
  p

/-- `SubWindowPopup._restore` (lines 689-695): only when restoring from
maximized, set `size_hint = (None, None)` and copy the saved
`_premax_pos`/`_premax_pos_hint` back verbatim, then refresh buttons. -/
def SubWindowPopup.restore_hook (wasMinimized : Bool) (p : SubWindowPopup) : SubWindowPopup :=
  if !wasMinimized then
    let p := { p with size_hint := (none, none), pos := p.premax_pos, pos_hint := p.premax_pos_hint }
    SubWindowPopup.update_buttons p
  else
    p

/-- `SubWindowBase.close` (lines 201-209) as inherited by `SubWindowPopup`:
build the request event, run the bound `on_request_close` handlers, and iff
`force or e.mayClose` dispatch `on_close` and enter the representation close
hook `_close`. -/
def SubWindowPopup.close (handler : CloseHandler) (force : Bool) (p : SubWindowPopup) :
    SubWindowPopup × List Ev :=
  let e := handler (SubWindowRequestCloseEvent.init force)
  if force || e.mayClose then
    (SubWindowPopup.close_hook p, [Ev.on_request_close force, Ev.on_close, Ev.hook_close])
  else
    (p, [Ev.on_request_close force])

/-- `SubWindowBase.maximize` (lines 212-220) as inherited by
`SubWindowPopup`: no-op when already maximized, else set the flag, dispatch
`on_maximize`, run the hook. -/
def SubWindowPopup.maximize (p : SubWindowPopup) : SubWindowPopup × List Ev :=
  if p.maximized then
    (p, [])
  else
    let p := { p with maximized := true }
    (SubWindowPopup.maximize_hook p, [Ev.on_maximize, Ev.hook_maximize])

/-- `SubWindowBase.minimize` (lines 223-231) as inherited by
`SubWindowPopup`. -/
def SubWindowPopup.minimize (p : SubWindowPopup) : SubWindowPopup × List Ev :=
  if p.minimized then
    (p, [])
  else
    let p := { p with minimized := true }
    (SubWindowPopup.minimize_hook p, [Ev.on_minimize, Ev.hook_minimize])

/-- `SubWindowBase.restore` (lines 234-247) as inherited by
`SubWindowPopup`: `minimized` is tested first; the taken branch clears its
own flag only and reports `wasMinimized` accordingly. -/
def SubWindowPopup.restore (p : SubWindowPopup) : SubWindowPopup × List Ev :=
  if p.minimized then
    let p := { p with minimized := false }
    (SubWindowPopup.restore_hook true p, [Ev.on_restore true, Ev.hook_restore true])
  else if p.maximized then
    let p := { p with maximized := false }
    (SubWindowPopup.restore_hook false p, [Ev.on_restore false, Ev.hook_restore false])
  else
    (p, [])

/-- Modelled from the spec: the native-window factory `WindowClass` from
`kivy.core.window` is not part of the sources; only the fields the adapter
assigns (lines 278-308) and the effects of `create_window`, `set_title` and
`close` are represented. -/
structure CoreWindow where
  resizable : Bool
  borderless : Bool
  position : String
  left : Int
  top : Int
  system_size : Point
  title : String
  initialized : Bool
  window_created : Bool
  displayed_title : Option String
  closed : Bool
deriving DecidableEq, Repr

/-- The keyword arguments `SubWindow.open` passes to `_create_subwindow`
(lines 455-469), which forwards them to the representation constructors. -/
structure CreateKwargs where
  pos : Point
  pos_hint : PosHint
  size : Point
  size_hint : SizeHint
  type : WindowType
  title : String
  kv_file : String
  minimized : Bool
  maximized : Bool
  allow_maximize : Bool
  allow_minimize : Bool
  allow_close : Bool
  content : Option WidgetId
deriving Repr

/-- State of a `SubWindowNative` (lines 269-327): the `_created`/`_open`
flags and the wrapped `WindowClass` instance. -/
structure SubWindowNative where
  created : Bool
  is_open : Bool
  win : CoreWindow
deriving DecidableEq, Repr

/-- `SubWindowNative.__init__` (lines 270-308): build the `WindowClass`,
derive `resizable`/`borderless` from the window type (the `else: raise`
branch is unreachable because `type` is an OptionProperty restricted to the
four options), then set custom position, size, title, and clear
`initialized`. -/
def SubWindowNative.init (kwargs : CreateKwargs) : SubWindowNative :=
  let w : CoreWindow :=
    { resizable := true, borderless := false, position := "", left := 0, top := 0,
      system_size := (0, 0), title := "", initialized := true,
      window_created := false, displayed_title := none, closed := false }
  let w :=
    match kwargs.type with
    | .resizable => { w with resizable := true }
    | .fixed => { w with resizable := false }
    | .tool => { w with resizable := false }
    | .borderless => { w with resizable := false, borderless := true }
  let w := { w with position := "custom", left := kwargs.pos.1, top := kwargs.pos.2 }
  let w := { w with system_size := kwargs.size, title := kwargs.title, initialized := false }
  { created := false, is_open := false, win := w }

/-- `SubWindowNative.open` (lines 310-321): no-op when `_open`; on the first
call create the OS window, apply the title and mark open.  When `_created`
already holds but `_open` does not, nothing happens (the `_open = True`
assignment sits inside the `if not self._created` block). -/
def SubWindowNative.open (n : SubWindowNative) : SubWindowNative :=
  if n.is_open then
    n
  else if !n.created then
    { n with created := true,
             win := { n.win with window_created := true, displayed_title := some n.win.title },
             is_open := true }
  else
    n

/-- `SubWindowNative.close` (lines 323-327): no-op when not `_open`, else
close the OS window.  `_open` is not reset. -/
def SubWindowNative.close (n : SubWindowNative) : SubWindowNative :=
  if !n.is_open then
    n
  else
    { n with win := { n.win with closed := true } }

/-- External collaborators of `_create_subwindow`: the platform name, the
resource locator `resource_find`, `os.path.exists`, and the declarative
loader `Builder.load_file` (returning the loaded content node). -/
structure Env where
  platform : String
  resource_find : String → Option String
  path_exists : String → Bool
  load_file : String → WidgetId

/-- `SubWindow.UseNativeWindow` (line 334): native windows are usable unless
the platform class is mobile. -/
def SubWindow.UseNativeWindow (platform : String) : Bool :=
  platform != "ios" && platform != "android"

/-- State of a `SubWindow` facade (lines 330-479): the `SubWindowBase`
properties, the facade-only properties (lines 336-362), the widget geometry
from `Widget`, and the two representation slots. -/
structure SubWindow where
  type : WindowType
  title : String
  kv_file : String
  allow_maximize : Bool
  allow_minimize : Bool
  allow_close : Bool
  minimized : Bool
  maximized : Bool
  content : Option WidgetId
  allow_native : Bool
  allow_switch : Bool
  auto_open : Bool
  pos : Point
  pos_hint : PosHint
  size : Point
  size_hint : SizeHint
  popup : Option SubWindowPopup
  window : Option SubWindowNative
deriving DecidableEq, Repr

/-- The keyword arguments accepted by the `SubWindow` constructor; a `none`
field is an absent key. -/
structure SubWindowKwargs where
  type : Option WindowType := none
  title : Option String := none
  kv_file : Option String := none
  allow_maximize : Option Bool := none
  allow_minimize : Option Bool := none
  allow_close : Option Bool := none
  minimized : Option Bool := none
  maximized : Option Bool := none
  content : Option WidgetId := none
  allow_native : Option Bool := none
  allow_switch : Option Bool := none
  auto_open : Option Bool := none
  pos : Option Point := none
  pos_hint : Option PosHint := none
  size : Option Point := none
  size_hint : Option SizeHint := none
deriving Repr

/-- `SubWindow.__init__` (lines 364-376).  `super().__init__(**kwargs)` runs
first and lets the property system consume the keyword arguments: each
property takes its kwarg when present, otherwise its declared default
(`title = StringProperty(NoTitle)` at line 141; `Widget` supplies
`pos = (0, 0)`, `size = (100, 100)`, `size_hint = (1, 1)`,
`pos_hint = empty`).  The subsequent `kwargs.setdefault` calls for `title`,
`size` and `size_hint` (lines 367-372) mutate only the local kwargs dict,
which is never read again, so they cannot reach the properties.  Finally
`self.window = None`. -/
def SubWindow.init (kwargs : SubWindowKwargs) : SubWindow :=
  let s : SubWindow :=
    { type := kwargs.type.getD .resizable,
      title := kwargs.title.getD "No title",
      kv_file := kwargs.kv_file.getD "",
      allow_maximize := kwargs.allow_maximize.getD true,
      allow_minimize := kwargs.allow_minimize.getD true,
      allow_close := kwargs.allow_close.getD true,
      minimized := kwargs.minimized.getD false,
      maximized := kwargs.maximized.getD false,
      content := kwargs.content,
      allow_native := kwargs.allow_native.getD true,
      allow_switch := kwargs.allow_switch.getD true,
      auto_open := kwargs.auto_open.getD false,
      pos := kwargs.pos.getD (0, 0),
      pos_hint := kwargs.pos_hint.getD [],
      size := kwargs.size.getD (100, 100),
      size_hint := kwargs.size_hint.getD (some 1, some 1),
      popup := none,
      window := none }
  { s with window := none }

/-- `SubWindow._create_window` (lines 440-447). -/
def SubWindow.create_window (kwargs : CreateKwargs) : SubWindowNative :=
  SubWindowNative.init kwargs

/-- `SubWindowPopup` construction by `SubWindow._create_popup` (line 450):
the properties come from the forwarded kwargs (`auto_dismiss = False` is a
`FloatModalView` concern, not modelled).  The content container and buttons
container are assigned while the kv rule of the class is applied — Modelled
from the spec: that kv rule is not part of the sources, the overlay panel
has a content container, and `on__container` (lines 654-658) then attaches
an already-present content to it. -/
def SubWindowPopup.init (kwargs : CreateKwargs) : SubWindowPopup :=
  { type := kwargs.type,
    title := kwargs.title,
    kv_file := kwargs.kv_file,
    allow_maximize := kwargs.allow_maximize,
    allow_minimize := kwargs.allow_minimize,
    allow_close := kwargs.allow_close,
    minimized := kwargs.minimized,
    maximized := kwargs.maximized,
    content := kwargs.content,
    pos := some kwargs.pos,
    pos_hint := some kwargs.pos_hint,
    size := kwargs.size,
    size_hint := kwargs.size_hint,
    container := some 0,
    container_children := kwargs.content.toList,
    children := [],
    is_open := false,
    premax_pos := none,
    premax_pos_hint := none,
    buttons_refreshes := 0 }

/-- `SubWindow._create_popup` (lines 449-450). -/
def SubWindow.create_popup (kwargs : CreateKwargs) : SubWindowPopup :=
  SubWindowPopup.init kwargs

/-- Lines 426-429 of `SubWindow._create_subwindow`: the representation
choice — native iff `SubWindow.UseNativeWindow and self.allow_native`,
popup otherwise. -/
def SubWindow.create_representation (env : Env) (s : SubWindow) (kwargs : CreateKwargs) :
    SubWindow :=
  if SubWindow.UseNativeWindow env.platform && s.allow_native then
    { s with window := some (SubWindow.create_window kwargs) }
  else
    { s with popup := some (SubWindow.create_popup kwargs) }

/-- `SubWindow.build` (lines 402-403): returns `None`. -/
def SubWindow.build (_ : SubWindow) : Option WidgetId :=
  none

/-- `SubWindow._create_subwindow` (lines 405-429): when there is no direct
content but a kv file is named, resolve it; an unresolvable file is
debug-logged and the method returns early, creating nothing.  Otherwise the
loaded tree (possibly overridden by `build()`, which returns `None` here)
becomes the content and a representation is created. -/
def SubWindow.create_subwindow (env : Env) (s : SubWindow) (kwargs : CreateKwargs) :
    SubWindow × List Ev :=
  if s.content.isNone && s.kv_file.length > 0 then
    let lg1 := Ev.log ("Subwindow: Loading kv <" ++ s.kv_file ++ ">")
    let lg2 := Ev.log ("Subwindow: kv <" ++ s.kv_file ++ "> not found")
    match env.resource_find s.kv_file with
    | none => (s, [lg1, lg2])
    | some rfilename =>
      if !env.path_exists rfilename then
        (s, [lg1, lg2])
      else
        let s := { s with content := some (env.load_file rfilename) }
        let content := SubWindow.build s
        let s := if content.isSome then { s with content := content } else s
        (SubWindow.create_representation env s kwargs, [lg1])
  else
    (SubWindow.create_representation env s kwargs, [])

/-- The kwargs record built inline in `SubWindow.open` (lines 455-469). -/
def SubWindow.open_kwargs (s : SubWindow) : CreateKwargs :=
  { pos := s.pos,
    pos_hint := s.pos_hint,
    size := s.size,
    size_hint := s.size_hint,
    type := s.type,
    title := s.title,
    kv_file := s.kv_file,
    minimized := s.minimized,
    maximized := s.maximized,
    allow_maximize := s.allow_maximize,
    allow_minimize := s.allow_minimize,
    allow_close := s.allow_close,
    content := s.content }

/-- `SubWindow.open` (lines 452-475): create a representation only when
neither slot is occupied, then open whichever slot is occupied. -/
def SubWindow.open (env : Env) (s : SubWindow) : SubWindow × List Ev :=
  let r :=
    if s.popup.isNone && s.window.isNone then
      SubWindow.create_subwindow env s (SubWindow.open_kwargs s)
    else
      (s, [])
  let s := r.1
  let s :=
    match s.popup with
    | some p => { s with popup := some (FloatModalView.open p) }
    | none => s
  let s :=
    match s.window with
    | some w => { s with window := some (SubWindowNative.open w) }
    | none => s
  (s, r.2)

/-- `SubWindow._close` (lines 395-400): forward to the popup's `_close`;
then `self.window._close()` — but `SubWindowNative` defines no `_close`
method (only `close`), so a native-backed facade raises `AttributeError`
here. -/
def SubWindow.close_hook (s : SubWindow) : Except String SubWindow :=
  let s :=
    match s.popup with
    | some p => { s with popup := some (SubWindowPopup.close_hook p) }
    | none => s
  match s.window with
  | some _ => .error "AttributeError: SubWindowNative object has no attribute named _close"
  | none => .ok s

/-- `SubWindowBase.close` (lines 201-209) as inherited by the `SubWindow`
facade: same protocol as `SubWindowPopup.close`, but the hook may raise. -/
def SubWindow.close (handler : CloseHandler) (force : Bool) (s : SubWindow) :
    Except String (SubWindow × List Ev) :=
  let e := handler (SubWindowRequestCloseEvent.init force)
  if force || e.mayClose then
    match SubWindow.close_hook s with
    | .ok s' => .ok (s', [Ev.on_request_close force, Ev.on_close, Ev.hook_close])
    | .error m => .error m
  else
    .ok (s, [Ev.on_request_close force])

/-- `SubWindow._switch` (lines 477-479): the body is `pass` under a
`TODO: Add switch code` comment. -/
def SubWindow.switch_hook (s : SubWindow) : SubWindow :=
  s

/-- `SubWindowBase.switch` (lines 249-251) as inherited by the facade:
delegates to `_switch`. -/
def SubWindow.switch (s : SubWindow) : SubWindow :=
  SubWindow.switch_hook s

/-- A desktop environment in which no kv resource resolves: platform
`linux` (neither `ios` nor `android`), `resource_find` finds nothing. -/
def testEnv : Env :=
  { platform := "linux",
    resource_find := fun _ => none,
    path_exists := fun _ => false,
    load_file := fun _ => 99 }

/-- A facade built with direct content and `allow_native = False`. -/
def overlayWindow : SubWindow :=
  SubWindow.init { content := some 7, allow_native := some false }

/-- The overlay representation `open()` creates for `overlayWindow`. -/
def overlayPopup : SubWindowPopup :=
  SubWindowPopup.init (SubWindow.open_kwargs overlayWindow)

/-- The facade state after the first `open()` of `overlayWindow`. -/
def openedOverlayWindow : SubWindow :=
  (SubWindow.open testEnv overlayWindow).1

/-- The opened overlay representation held by `openedOverlayWindow`. -/
def openedOverlayPopup : SubWindowPopup :=
  FloatModalView.open overlayPopup

/-- C1: `close(force)` dispatches `on_request_close`, then dispatches
`on_close` and enters the representation close hook `_close` if and only if
`force` is true or the `mayClose` field of the dispatched event is still
true after the handlers ran; `close(force=True)` always proceeds, and a
vetoed `close(force=False)` leaves the state unchanged and dispatches
nothing beyond `on_request_close`. -/
theorem close_protocol_iff (handler : CloseHandler) (force : Bool) (p : SubWindowPopup) :
    ((Ev.on_close ∈ (SubWindowPopup.close handler force p).2 ∧
      Ev.hook_close ∈ (SubWindowPopup.close handler force p).2 ∧
      (SubWindowPopup.close handler force p).1 = SubWindowPopup.close_hook p) ↔
      (force = true ∨ (handler (SubWindowRequestCloseEvent.init force)).mayClose = true)) ∧
    (force = true →
      (SubWindowPopup.close handler force p).2 =
        [Ev.on_request_close true, Ev.on_close, Ev.hook_close] ∧
      (SubWindowPopup.close handler force p).1 = SubWindowPopup.close_hook p) ∧
    (force = false → (handler (SubWindowRequestCloseEvent.init false)).mayClose = false →
      (SubWindowPopup.close handler force p).1 = p ∧
      (SubWindowPopup.close handler force p).2 = [Ev.on_request_close false]) := by
  cases force with
  | true => simp [SubWindowPopup.close]
  | false =>
    cases hm : (handler (SubWindowRequestCloseEvent.init false)).mayClose with
    | true => simp [SubWindowPopup.close, hm]
    | false => simp [SubWindowPopup.close, hm]

/-- Witness for C1 at a concrete vetoing handler and window. -/
theorem close_protocol_iff_witness :
    (SubWindowPopup.close (fun e => { e with mayClose := false }) false overlayPopup).1 =
      overlayPopup ∧
    (SubWindowPopup.close (fun e => { e with mayClose := false }) false overlayPopup).2 =
      [Ev.on_request_close false] :=
  (close_protocol_iff (fun e => { e with mayClose := false }) false overlayPopup).2.2 rfl rfl

/-- C3: `switch()` delegates to `SubWindow._switch`, whose body is a `pass`
stub under a TODO comment, so it changes nothing at all — in particular it
does not exchange the active representation. -/
theorem switch_is_noop (s : SubWindow) : SubWindow.switch s = s :=
  rfl

/-- C5 counterexample: starting from the initial overlay state (both flags
false), the public sequence `minimize(); maximize()` reaches a state with
`minimized` and `maximized` both true — `maximize` only guards its own
flag and never clears `minimized`. -/
theorem flags_mutual_exclusion_cex :
    (SubWindowPopup.maximize (SubWindowPopup.minimize overlayPopup).1).1.minimized = true ∧
    (SubWindowPopup.maximize (SubWindowPopup.minimize overlayPopup).1).1.maximized = true :=
  ⟨rfl, rfl⟩

/-- C5 amended: the flags are not mutually exclusive; what the operations do
guarantee is a frame discipline — `maximize` never changes `minimized`,
`minimize` never changes `maximized`, `close` changes neither flag,
`FloatModalView.open` changes neither flag, and `restore` never raises a
flag: afterwards `minimized` is always false and `maximized` survives only
when the minimized branch (which does not touch it) was taken. -/
theorem flags_frame_conditions (p : SubWindowPopup) (handler : CloseHandler) (force : Bool) :
    ((SubWindowPopup.maximize p).1.minimized = p.minimized) ∧
    ((SubWindowPopup.minimize p).1.maximized = p.maximized) ∧
    ((SubWindowPopup.restore p).1.minimized = false) ∧
    ((SubWindowPopup.restore p).1.maximized = (p.minimized && p.maximized)) ∧
    ((SubWindowPopup.close handler force p).1.minimized = p.minimized) ∧
    ((SubWindowPopup.close handler force p).1.maximized = p.maximized) ∧
    ((FloatModalView.open p).minimized = p.minimized) ∧
    ((FloatModalView.open p).maximized = p.maximized) := by
  refine ⟨?_, ?_, ?_, ?_, ?_, ?_, rfl, rfl⟩
  · by_cases h : p.maximized <;>
      simp [SubWindowPopup.maximize, SubWindowPopup.maximize_hook,
            SubWindowPopup.update_buttons, h]
  · by_cases h : p.minimized <;>
      simp [SubWindowPopup.minimize, SubWindowPopup.minimize_hook, h]
  · by_cases h : p.minimized <;> by_cases h2 : p.maximized <;>
      simp [SubWindowPopup.restore, SubWindowPopup.restore_hook,
            SubWindowPopup.update_buttons, h, h2]
  · by_cases h : p.minimized <;> by_cases h2 : p.maximized <;>
      simp [SubWindowPopup.restore, SubWindowPopup.restore_hook,
            SubWindowPopup.update_buttons, h, h2]
  · by_cases h : (force || (handler (SubWindowRequestCloseEvent.init force)).mayClose) <;>
      simp [SubWindowPopup.close, SubWindowPopup.close_hook, FloatModalView.dismiss, h];
      by_cases h2 : p.is_open <;> simp [h2]
  · by_cases h : (force || (handler (SubWindowRequestCloseEvent.init force)).mayClose) <;>
      simp [SubWindowPopup.close, SubWindowPopup.close_hook, FloatModalView.dismiss, h];
      by_cases h2 : p.is_open <;> simp [h2]

/-- C7: `restore()` tests `minimized` first; the minimized branch clears
only `minimized`, dispatches `on_restore` with `wasMinimized = True` and
leaves `maximized` untouched; otherwise, with `maximized` set, it clears
only `maximized` and dispatches `on_restore` with `wasMinimized = False`. -/
theorem restore_branch_discrimination (p : SubWindowPopup) :
    (p.minimized = true →
      SubWindowPopup.restore p =
        (SubWindowPopup.restore_hook true { p with minimized := false },
         [Ev.on_restore true, Ev.hook_restore true]) ∧
      (SubWindowPopup.restore p).1.maximized = p.maximized) ∧
    (p.minimized = false → p.maximized = true →
      SubWindowPopup.restore p =
        (SubWindowPopup.restore_hook false { p with maximized := false },
         [Ev.on_restore false, Ev.hook_restore false]) ∧
      (SubWindowPopup.restore p).1.minimized = p.minimized) := by
  constructor
  · intro h
    simp [SubWindowPopup.restore, SubWindowPopup.restore_hook, h]
  · intro h h2
    simp [SubWindowPopup.restore, SubWindowPopup.restore_hook,
          SubWindowPopup.update_buttons, h, h2]

/-- Witness for C7 at a state with (hypothetically) both flags set: the
minimized branch wins and `maximized` stays true. -/
theorem restore_branch_discrimination_witness :
    SubWindowPopup.restore { overlayPopup with minimized := true, maximized := true } =
      (SubWindowPopup.restore_hook true
        { { overlayPopup with minimized := true, maximized := true } with minimized := false },
       [Ev.on_restore true, Ev.hook_restore true]) ∧
    (SubWindowPopup.restore
        { overlayPopup with minimized := true, maximized := true }).1.maximized =
      ({ overlayPopup with minimized := true, maximized := true } : SubWindowPopup).maximized :=
  (restore_branch_discrimination
    { overlayPopup with minimized := true, maximized := true }).1 rfl

/-- C8: with the content container present, adding a widget while a content
node is already attached raises the content-conflict `SubWindowException`;
the raise aborts `add_widget` before any assignment, so the caller keeps
the original state with its original content. -/
theorem add_widget_content_conflict (p : SubWindowPopup) (w : WidgetId) (c : WidgetId)
    (hcont : p.container.isSome = true) (hc : p.content = some c) :
    SubWindowPopup.add_widget w p =
      .error "SubWindow can have only one widget as content" := by
  simp [SubWindowPopup.add_widget, hcont, hc]

/-- Witness for C8: the overlay fixture already holds content `7`; adding
widget `42` is rejected. -/
theorem add_widget_content_conflict_witness :
    SubWindowPopup.add_widget 42 overlayPopup =
      .error "SubWindow can have only one widget as content" :=
  add_widget_content_conflict overlayPopup 42 7 rfl rfl

/-- C10: a `SubWindow` constructed without an explicit title carries the
`StringProperty` default `No title`, not `Untitled` — the
`kwargs.setdefault` to `Untitled` runs only after the base initializer has
already consumed the kwargs, so it never reaches the property. -/
theorem default_title_value :
    (SubWindow.init {}).title = "No title" ∧ (SubWindow.init {}).title ≠ "Untitled" := by
  constructor
  · rfl
  · decide

/-- Helper: the selection branch (lines 426-429) fills the native slot iff
`UseNativeWindow` and `allow_native` are both true, the popup slot
otherwise, and never both. -/
lemma create_representation_slots (env : Env) (s : SubWindow) (kwargs : CreateKwargs)
    (hp : s.popup = none) (hw : s.window = none) :
    ((SubWindow.create_representation env s kwargs).window.isSome = true ↔
      (SubWindow.UseNativeWindow env.platform = true ∧ s.allow_native = true)) ∧
    ((SubWindow.create_representation env s kwargs).popup.isSome = true ↔
      ¬(SubWindow.UseNativeWindow env.platform = true ∧ s.allow_native = true)) ∧
    ¬((SubWindow.create_representation env s kwargs).popup.isSome = true ∧
      (SubWindow.create_representation env s kwargs).window.isSome = true) := by
  cases hA : SubWindow.UseNativeWindow env.platform <;> cases hB : s.allow_native <;>
    simp [SubWindow.create_representation, hA, hB, hp, hw]

/-- Helper: `_create_subwindow` either aborts with the state unchanged (the
unresolvable-kv early return) or hands a state differing at most in
`content` to the selection branch. -/
lemma create_subwindow_shape (env : Env) (s : SubWindow) (kwargs : CreateKwargs) :
    (SubWindow.create_subwindow env s kwargs).1 = s ∨
    ∃ c, (SubWindow.create_subwindow env s kwargs).1 =
      SubWindow.create_representation env { s with content := c } kwargs := by
  unfold SubWindow.create_subwindow
  split
  · split
    · exact Or.inl rfl
    · split
      · exact Or.inl rfl
      · exact Or.inr ⟨_, rfl⟩
  · exact Or.inr ⟨s.content, rfl⟩

/-- C4: starting with both representation slots empty, whenever
`_create_subwindow` creates a representation at all, it creates a native
window exactly when `UseNativeWindow` and `allow_native` are both true and
an overlay popup otherwise, and it never creates both; in particular a
desktop platform with `allow_native = False` yields the overlay. -/
theorem representation_choice (env : Env) (s : SubWindow) (kwargs : CreateKwargs)
    (hp : s.popup = none) (hw : s.window = none)
    (hcreated : (SubWindow.create_subwindow env s kwargs).1.popup.isSome = true ∨
                (SubWindow.create_subwindow env s kwargs).1.window.isSome = true) :
    ((SubWindow.create_subwindow env s kwargs).1.window.isSome = true ↔
      (SubWindow.UseNativeWindow env.platform = true ∧ s.allow_native = true)) ∧
    ((SubWindow.create_subwindow env s kwargs).1.popup.isSome = true ↔
      ¬(SubWindow.UseNativeWindow env.platform = true ∧ s.allow_native = true)) ∧
    ¬((SubWindow.create_subwindow env s kwargs).1.popup.isSome = true ∧
      (SubWindow.create_subwindow env s kwargs).1.window.isSome = true) := by
  rcases create_subwindow_shape env s kwargs with h | ⟨c, h⟩
  · rw [h, hp, hw] at hcreated
    simp at hcreated
  · rw [h] at hcreated ⊢
    exact create_representation_slots env { s with content := c } kwargs hp hw

/-- Witness for C4: on the desktop platform of `testEnv` with
`allow_native = False`, the created representation is the overlay. -/
theorem representation_choice_witness :
    ((SubWindow.create_subwindow testEnv overlayWindow
        (SubWindow.open_kwargs overlayWindow)).1.popup.isSome = true ↔
      ¬(SubWindow.UseNativeWindow testEnv.platform = true ∧
        overlayWindow.allow_native = true)) :=
  (representation_choice testEnv overlayWindow (SubWindow.open_kwargs overlayWindow) rfl rfl
    (Or.inl (by decide))).2.1

/-- C2 counterexample: for the concretely opened overlay window,
`close(force=True)` does not destroy the representation — the `popup` slot
still holds it afterwards, so the claimed destroy/re-create lifecycle is
false on the code. -/
theorem close_destroys_representation_cex :
    Except.map (fun r => r.1.popup.isSome)
      (SubWindow.close (fun e => e) true openedOverlayWindow) = Except.ok true :=
  rfl

/-- C2 amended: the representation is created lazily by the first `open()`,
but `close(force=True)` only runs the close hook (dismissing an overlay) and
leaves the `popup` slot occupied, and a subsequent `open()` does not
re-create a representation — it re-opens the surviving popup object. -/
theorem open_reuses_existing_popup (env : Env) (s : SubWindow) (p : SubWindowPopup)
    (handler : CloseHandler) (hp : s.popup = some p) (hw : s.window = none) :
    SubWindow.close handler true s =
      .ok ({ s with popup := some (SubWindowPopup.close_hook p) },
           [Ev.on_request_close true, Ev.on_close, Ev.hook_close]) ∧
    SubWindow.open env { s with popup := some (SubWindowPopup.close_hook p) } =
      ({ s with popup := some (FloatModalView.open (SubWindowPopup.close_hook p)) }, []) := by
  constructor
  · simp [SubWindow.close, SubWindow.close_hook, hp, hw]
  · simp [SubWindow.open, hp, hw]

/-- Witness for C2 amended: re-opening the concretely closed overlay window
re-opens its surviving popup. -/
theorem open_reuses_existing_popup_witness :
    (SubWindow.open testEnv
        { openedOverlayWindow with
          popup := some (SubWindowPopup.close_hook openedOverlayPopup) }).1.popup =
      some (FloatModalView.open (SubWindowPopup.close_hook openedOverlayPopup)) := by
  have h := (open_reuses_existing_popup testEnv openedOverlayWindow openedOverlayPopup
    (fun e => e) rfl rfl).2
  rw [h]

/-- C6 counterexample: for the concrete overlay (not minimized, not
maximized, `size_hint = (1, 1)`), the sequence `maximize(); restore()` does
not restore the geometry captured before maximize: `size_hint` comes back
as `(None, None)`, not as the captured `(1, 1)`. -/
theorem maximize_restore_geometry_cex :
    (SubWindowPopup.restore (SubWindowPopup.maximize overlayPopup).1).1.size_hint ≠
      overlayPopup.size_hint ∧
    overlayPopup.minimized = false ∧ overlayPopup.maximized = false := by
  refine ⟨by decide, rfl, rfl⟩

/-- C6 amended: for an overlay that is neither minimized nor maximized,
`maximize(); restore()` restores `pos` and `pos_hint` exactly as captured by
the maximize hook and leaves `size` untouched, but sets `size_hint` to
`(None, None)` regardless of its pre-maximize value; both flags end false. -/
theorem maximize_restore_roundtrip (p : SubWindowPopup)
    (hmin : p.minimized = false) (hmax : p.maximized = false) :
    (SubWindowPopup.restore (SubWindowPopup.maximize p).1).1.pos = p.pos ∧
    (SubWindowPopup.restore (SubWindowPopup.maximize p).1).1.pos_hint = p.pos_hint ∧
    (SubWindowPopup.restore (SubWindowPopup.maximize p).1).1.size = p.size ∧
    (SubWindowPopup.restore (SubWindowPopup.maximize p).1).1.size_hint = (none, none) ∧
    (SubWindowPopup.restore (SubWindowPopup.maximize p).1).1.minimized = false ∧
    (SubWindowPopup.restore (SubWindowPopup.maximize p).1).1.maximized = false := by
  simp [SubWindowPopup.maximize, SubWindowPopup.maximize_hook, SubWindowPopup.restore,
        SubWindowPopup.restore_hook, SubWindowPopup.update_buttons, hmin, hmax]

/-- Witness for C6 amended at the concrete overlay fixture. -/
theorem maximize_restore_roundtrip_witness :
    (SubWindowPopup.restore (SubWindowPopup.maximize overlayPopup).1).1.pos =
      overlayPopup.pos ∧
    (SubWindowPopup.restore (SubWindowPopup.maximize overlayPopup).1).1.pos_hint =
      overlayPopup.pos_hint ∧
    (SubWindowPopup.restore (SubWindowPopup.maximize overlayPopup).1).1.size =
      overlayPopup.size ∧
    (SubWindowPopup.restore (SubWindowPopup.maximize overlayPopup).1).1.size_hint =
      (none, none) ∧
    (SubWindowPopup.restore (SubWindowPopup.maximize overlayPopup).1).1.minimized = false ∧
    (SubWindowPopup.restore (SubWindowPopup.maximize overlayPopup).1).1.maximized = false :=
  maximize_restore_roundtrip overlayPopup rfl rfl

/-- C9: with no direct content and a kv path that the resource locator
cannot resolve (or that resolves to a non-existing file), `open()` aborts
softly: the state is returned unchanged — no representation in either slot,
nothing opened, no exception — and the trace holds exactly the two debug
log lines. -/
theorem unresolvable_kv_soft_abort (env : Env) (s : SubWindow)
    (hc : s.content = none) (hk : 0 < s.kv_file.length)
    (hres : ∀ rfn, env.resource_find s.kv_file = some rfn → env.path_exists rfn = false)
    (hp : s.popup = none) (hw : s.window = none) :
    SubWindow.open env s =
      (s, [Ev.log ("Subwindow: Loading kv <" ++ s.kv_file ++ ">"),
           Ev.log ("Subwindow: kv <" ++ s.kv_file ++ "> not found")]) := by
  unfold SubWindow.open SubWindow.create_subwindow
  cases hfind : env.resource_find s.kv_file with
  | none => simp [hc, hk, hp, hw, hfind]
  | some rfn => simp [hc, hk, hp, hw, hfind, hres rfn hfind]

/-- A facade built only with an unresolvable kv path. -/
def kvWindow : SubWindow :=
  SubWindow.init { kv_file := some "missing.kv" }

/-- Witness for C9 at the concrete window and environment. -/
theorem unresolvable_kv_soft_abort_witness :
    SubWindow.open testEnv kvWindow =
      (kvWindow, [Ev.log ("Subwindow: Loading kv <" ++ kvWindow.kv_file ++ ">"),
                  Ev.log ("Subwindow: kv <" ++ kvWindow.kv_file ++ "> not found")]) :=
  unresolvable_kv_soft_abort testEnv kvWindow rfl (by decide)
    (fun rfn hr => by simp [testEnv] at hr) rfl rfl
